import Mathlib

/-!
Shallow embedding of `py_plugins/examples/example_py_vuln_detector.py`.

The protobuf message types used by the plugin (`TargetInfo`, `NetworkService`,
`DetectionReport`, `DetectionReportList`, `Vulnerability`, `PluginDefinition`,
`PluginInfo`, `Timestamp`) are host-engine types, not defined in this
repository; they are modelled here as plain structures with exactly the fields
the plugin reads or writes.  `TargetInfo` and `NetworkService` are opaque to
the plugin, so they are modelled as wrappers around an abstract payload.

The call `timestamp_pb2.Timestamp().GetCurrentTime()` inside
`_BuildDetectionReport` reads the wall clock; it is modelled by an explicit
`now : Timestamp` argument threaded through `Detect` and
`_BuildDetectionReport`.
-/

/-- Modelled from the spec: a host-provided record with the general
information about the scan target.  The plugin never inspects its contents,
so it is an opaque payload. -/
structure TargetInfo where
  payload : Nat
deriving DecidableEq, Repr

/-- Modelled from the spec: a host-provided description of one discovered
service endpoint on a scan target.  The plugin never inspects its contents,
so it is an opaque payload. -/
structure NetworkService where
  payload : Nat
deriving DecidableEq, Repr

/-- `google.protobuf.Timestamp`: seconds and nanos since the epoch. -/
structure Timestamp where
  seconds : Int
  nanos : Int
deriving DecidableEq, Repr

/-- `vulnerability_pb2.VulnerabilityId` as constructed by the plugin. -/
structure VulnerabilityId where
  publisher : String
  value : String
deriving DecidableEq, Repr

/-- `vulnerability_pb2.TextData` as constructed by the plugin. -/
structure TextData where
  text : String
deriving DecidableEq, Repr

/-- `vulnerability_pb2.AdditionalDetail` as constructed by the plugin. -/
structure AdditionalDetail where
  text_data : TextData
deriving DecidableEq, Repr

/-- `vulnerability_pb2.Severity` enum. -/
inductive Severity where
  | SEVERITY_UNSPECIFIED
  | MINIMAL
  | LOW
  | MEDIUM
  | HIGH
  | CRITICAL
deriving DecidableEq, Repr

/-- `vulnerability_pb2.Vulnerability` with the fields the plugin populates. -/
structure Vulnerability where
  main_id : VulnerabilityId
  severity : Severity
  title : String
  description : String
  additional_details : List AdditionalDetail
deriving DecidableEq, Repr

/-- `detection_pb2.DetectionStatus` enum. -/
inductive DetectionStatus where
  | DETECTION_STATUS_UNSPECIFIED
  | SAFE
  | VULNERABILITY_PRESENT
  | VULNERABILITY_VERIFIED
deriving DecidableEq, Repr

/-- `detection_pb2.DetectionReport` with the fields the plugin populates. -/
structure DetectionReport where
  target_info : TargetInfo
  network_service : NetworkService
  detection_timestamp : Timestamp
  detection_status : DetectionStatus
  vulnerability : Vulnerability
deriving DecidableEq, Repr

/-- `detection_pb2.DetectionReportList`. -/
structure DetectionReportList where
  detection_reports : List DetectionReport
deriving DecidableEq, Repr

/-- `plugin_representation_pb2.PluginInfo.PluginType` enum. -/
inductive PluginType where
  | PLUGIN_TYPE_UNSPECIFIED
  | VULN_DETECTION
deriving DecidableEq, Repr

/-- `plugin_representation_pb2.PluginInfo` with the fields the plugin sets. -/
structure PluginInfo where
  type : PluginType
  name : String
  version : String
  description : String
  author : String
deriving DecidableEq, Repr

/-- `tsunami_plugin.PluginDefinition`. -/
structure PluginDefinition where
  info : PluginInfo
deriving DecidableEq, Repr

namespace ExamplePyVulnDetector

/-- `ExamplePyVulnDetector.IsServiceVulnerable`: the stub detection check,
`return True`.  The detector is stateless, so `self` is dropped. -/
def IsServiceVulnerable : Bool :=
  true

/-- `ExamplePyVulnDetector.GetPluginDefinition`: the static plugin
metadata. -/
def GetPluginDefinition : PluginDefinition :=
  { info :=
      { type := PluginType.VULN_DETECTION
        name := "ExamplePyVulnDetector"
        version := "0.1"
        description := "This is an example python plugin"
        author := "Alice (alice@company.com)" } }

/-- `ExamplePyVulnDetector._BuildDetectionReport`: builds the
`DetectionReport` message for a vulnerable network service.  The wall-clock
read `Timestamp().GetCurrentTime()` is the explicit argument `now`. -/
def _BuildDetectionReport (now : Timestamp) (target : TargetInfo)
    (vulnerable_service : NetworkService) : DetectionReport :=
  { target_info := target
    network_service := vulnerable_service
    detection_timestamp := now
    detection_status := DetectionStatus.VULNERABILITY_VERIFIED
    vulnerability :=
      { main_id :=
          { publisher := "vulnerability_id_publisher"
            value := "VULNERABILITY_ID" }
        severity := Severity.CRITICAL
        title := "Vulnerability Title"
        description := "Detailed description of the vulnerability"
        additional_details :=
          [{ text_data := { text := "Some additional technical details." } }] } }

/-- `ExamplePyVulnDetector.Detect`: the list comprehension
`[self._BuildDetectionReport(target, service) for service in matched_services
if self.IsServiceVulnerable()]`, wrapped in a `DetectionReportList`.  The
wall-clock read is the explicit argument `now`, shared by the reports of one
call. -/
def Detect (now : Timestamp) (target : TargetInfo)
    (matched_services : List NetworkService) : DetectionReportList :=
  { detection_reports :=
      matched_services.filterMap fun service =>
        if IsServiceVulnerable then
          some (_BuildDetectionReport now target service)
        else
          none }

/-- Since `IsServiceVulnerable` is `true`, the comprehension in `Detect`
keeps every service: the report list is a plain map. -/
theorem Detect_eq_map (now : Timestamp) (target : TargetInfo)
    (matched_services : List NetworkService) :
    (Detect now target matched_services).detection_reports =
      matched_services.map (_BuildDetectionReport now target) := by
  induction matched_services with
  | nil => rfl
  | cons s rest ih =>
      simpa [Detect, IsServiceVulnerable] using ih

end ExamplePyVulnDetector

open ExamplePyVulnDetector

/-- C1: `IsServiceVulnerable` is a constant function: for every invocation,
regardless of detector state and of any target or service under scan (it
takes no arguments), it returns the boolean `True`. -/
theorem isServiceVulnerable_always_true :
    IsServiceVulnerable = true :=
  rfl

/-- C2: for every target (and clock reading) and every list of matched
services, `Detect` returns a `DetectionReportList` whose
`detection_reports` contain exactly one `DetectionReport` per element of
`matched_services`, in the same order: the list has the same length and the
i-th report is `_BuildDetectionReport` applied to the given target and the
i-th matched service. -/
theorem detect_one_report_per_service (now : Timestamp) (target : TargetInfo)
    (matched_services : List NetworkService) :
    (Detect now target matched_services).detection_reports.length =
        matched_services.length ∧
    ∀ i : Nat,
      (Detect now target matched_services).detection_reports[i]? =
        matched_services[i]?.map (_BuildDetectionReport now target) := by
  refine ⟨by simp [Detect_eq_map], fun i => ?_⟩
  simp [Detect_eq_map]

/-- C3 counterexample: the `DetectionReport` returned by
`_BuildDetectionReport` is NOT one fixed constant value independent of the
`target` argument: at the same clock reading and the same service, targets
`⟨0⟩` and `⟨1⟩` yield different reports. -/
theorem buildDetectionReport_not_constant :
    _BuildDetectionReport ⟨0, 0⟩ ⟨0⟩ ⟨0⟩ ≠ _BuildDetectionReport ⟨0, 0⟩ ⟨1⟩ ⟨0⟩ := by
  decide

/-- C3 amended: `_BuildDetectionReport` populates a static vulnerability
message: the `vulnerability` and `detection_status` fields of the returned
report are fixed constants, identical across all invocations and independent
of the `target` and `vulnerable_service` arguments; the remaining fields are
not constant: `target_info` and `network_service` equal the arguments, and
`detection_timestamp` is the clock reading of the invocation. -/
theorem buildDetectionReport_static_message (now : Timestamp)
    (target : TargetInfo) (vulnerable_service : NetworkService) :
    (_BuildDetectionReport now target vulnerable_service).vulnerability =
        { main_id :=
            { publisher := "vulnerability_id_publisher"
              value := "VULNERABILITY_ID" }
          severity := Severity.CRITICAL
          title := "Vulnerability Title"
          description := "Detailed description of the vulnerability"
          additional_details :=
            [{ text_data := { text := "Some additional technical details." } }] } ∧
    (_BuildDetectionReport now target vulnerable_service).detection_status =
        DetectionStatus.VULNERABILITY_VERIFIED ∧
    (_BuildDetectionReport now target vulnerable_service).target_info = target ∧
    (_BuildDetectionReport now target vulnerable_service).network_service =
        vulnerable_service ∧
    (_BuildDetectionReport now target vulnerable_service).detection_timestamp =
        now :=
  ⟨rfl, rfl, rfl, rfl, rfl⟩

/-- C4: every `DetectionReport` produced by `_BuildDetectionReport`
describes one confirmed finding against one scanned service: its
`detection_status` is `VULNERABILITY_VERIFIED`, its `network_service` is
exactly the single service passed in, and its `target_info` is the target
passed in. -/
theorem buildDetectionReport_one_confirmed_finding (now : Timestamp)
    (target : TargetInfo) (vulnerable_service : NetworkService) :
    (_BuildDetectionReport now target vulnerable_service).detection_status =
        DetectionStatus.VULNERABILITY_VERIFIED ∧
    (_BuildDetectionReport now target vulnerable_service).network_service =
        vulnerable_service ∧
    (_BuildDetectionReport now target vulnerable_service).target_info =
        target :=
  ⟨rfl, rfl, rfl⟩

/-- C5: `GetPluginDefinition` returns static plugin-identity metadata: the
same `PluginDefinition` on every call, whose `PluginInfo` has type
`VULN_DETECTION`, name `ExamplePyVulnDetector`, version `0.1`, description
`This is an example python plugin`, and author `Alice (alice@company.com)`. -/
theorem getPluginDefinition_static_metadata :
    GetPluginDefinition =
      { info :=
          { type := PluginType.VULN_DETECTION
            name := "ExamplePyVulnDetector"
            version := "0.1"
            description := "This is an example python plugin"
            author := "Alice (alice@company.com)" } } :=
  rfl

/-- C6: the detection decision is independent of the scanned data: for any
two runs of `Detect` on service lists of equal length — whatever the
contents of the services, the targets, and the clock readings — the number
of `DetectionReport`s returned is the same in both runs. -/
theorem detect_report_count_independent_of_data (now1 now2 : Timestamp)
    (target1 target2 : TargetInfo) (l1 l2 : List NetworkService)
    (h : l1.length = l2.length) :
    (Detect now1 target1 l1).detection_reports.length =
      (Detect now2 target2 l2).detection_reports.length := by
  simp [Detect_eq_map, h]

/-- Witness for C6 at concrete inputs: two runs on different targets,
clock readings and service contents, but equal list lengths, return the same
number of reports. -/
theorem detect_report_count_independent_of_data_witness :
    ([(⟨0⟩ : NetworkService), ⟨1⟩].length = [(⟨7⟩ : NetworkService), ⟨9⟩].length) ∧
    (Detect ⟨0, 0⟩ ⟨0⟩ [⟨0⟩, ⟨1⟩]).detection_reports.length =
      (Detect ⟨5, 6⟩ ⟨3⟩ [⟨7⟩, ⟨9⟩]).detection_reports.length :=
  ⟨rfl, detect_report_count_independent_of_data ⟨0, 0⟩ ⟨5, 6⟩ ⟨0⟩ ⟨3⟩
      [⟨0⟩, ⟨1⟩] [⟨7⟩, ⟨9⟩] rfl⟩

/-- C7: `Detect` performs no aggregation or deduplication: for every target,
the number of reports whose `network_service` equals a given service `s` is
exactly the number of occurrences of `s` in `matched_services`. -/
theorem detect_no_deduplication (now : Timestamp) (target : TargetInfo)
    (matched_services : List NetworkService) (s : NetworkService) :
    ((Detect now target matched_services).detection_reports.countP
        fun r => r.network_service == s) =
      matched_services.count s := by
  rw [Detect_eq_map]
  induction matched_services with
  | nil => rfl
  | cons x rest ih =>
      simp [List.count_cons, List.countP_cons, _BuildDetectionReport, ih]

/-- C8: every `DetectionReport` in `Detect`'s output carries the same
hard-coded vulnerability payload regardless of input: severity `CRITICAL`,
title `Vulnerability Title`, description `Detailed description of the
vulnerability`, `main_id` with publisher `vulnerability_id_publisher` and
value `VULNERABILITY_ID`, and exactly one additional detail with text
`Some additional technical details.`. -/
theorem detect_reports_fixed_payload (now : Timestamp) (target : TargetInfo)
    (matched_services : List NetworkService) (r : DetectionReport)
    (hr : r ∈ (Detect now target matched_services).detection_reports) :
    r.vulnerability =
      { main_id :=
          { publisher := "vulnerability_id_publisher"
            value := "VULNERABILITY_ID" }
        severity := Severity.CRITICAL
        title := "Vulnerability Title"
        description := "Detailed description of the vulnerability"
        additional_details :=
          [{ text_data := { text := "Some additional technical details." } }] } := by
  rw [Detect_eq_map] at hr
  obtain ⟨s, hs, rfl⟩ := List.mem_map.mp hr
  rfl

/-- Witness for C8 at a concrete input: the single report produced for the
service `⟨0⟩` is in the output and carries the hard-coded payload. -/
theorem detect_reports_fixed_payload_witness :
    (_BuildDetectionReport ⟨0, 0⟩ ⟨0⟩ ⟨0⟩ ∈
        (Detect ⟨0, 0⟩ ⟨0⟩ [⟨0⟩]).detection_reports) ∧
    (_BuildDetectionReport ⟨0, 0⟩ ⟨0⟩ ⟨0⟩).vulnerability =
      { main_id :=
          { publisher := "vulnerability_id_publisher"
            value := "VULNERABILITY_ID" }
        severity := Severity.CRITICAL
        title := "Vulnerability Title"
        description := "Detailed description of the vulnerability"
        additional_details :=
          [{ text_data := { text := "Some additional technical details." } }] } :=
  ⟨by decide,
   detect_reports_fixed_payload ⟨0, 0⟩ ⟨0⟩ [⟨0⟩] _ (by decide)⟩

/-- C9: `Detect` is a list homomorphism over `matched_services`: at a fixed
clock reading, the reports for `l1 ++ l2` are those for `l1` followed by
those for `l2`. -/
theorem detect_append_homomorphism (now : Timestamp) (target : TargetInfo)
    (l1 l2 : List NetworkService) :
    (Detect now target (l1 ++ l2)).detection_reports =
      (Detect now target l1).detection_reports ++
        (Detect now target l2).detection_reports := by
  simp [Detect_eq_map]

/-- C10: `Detect` is total: it is a total function returning a
`DetectionReportList` on every input (one report per matched service); in
particular, on an empty `matched_services` list its `detection_reports` list
is empty. -/
theorem detect_total_empty_on_empty (now : Timestamp) (target : TargetInfo)
    (matched_services : List NetworkService) :
    (Detect now target matched_services).detection_reports.length =
        matched_services.length ∧
    (Detect now target ([] : List NetworkService)).detection_reports = [] := by
  constructor
  · simp [Detect_eq_map]
  · rfl
